import Mathlib

/-!
Verification development for the DnsLiar-Rs repository.

The relevant source code is `src/redis_mod.rs` (`build_config`) and
`src/main.rs` (`setup_binds`, `handle_signals`).  The program's data
types (`Config`, `ErrorKind`) live in `enums_structs.rs`, which is not
among the provided sources; their shape is reconstructed from their
uses in the two given files and from the design document.

External effects are modelled explicitly:
* the Redis store is a record of fetch results, one per configuration
  set, each either a list of strings or a store error;
* the Rust standard-library parsers (`Ipv4Addr`, `Ipv6Addr`,
  `SocketAddr` `FromStr`) are oracles passed in as functions;
* the OS socket-bind outcomes are oracles as well.

A Rust `panic!` / `.expect` is a distinct result constructor, since it
is observably different from returning `Err` (in `handle_signals` an
`Err` is caught with `continue`, a panic unwinds the task).
Machine-integer casts in the source (`as u8`, `as u32`, the `u8` and
`u32` counters) are modelled on `Nat` with explicit `% 2 ^ 8` and
`% 2 ^ 32`, using release-profile wrapping semantics.
-/

/-- IPv4 address value; only its identity matters to the claims, so it
wraps its textual form. -/
structure Ipv4Addr where
  addr : String
deriving DecidableEq, Repr

/-- IPv6 address value. -/
structure Ipv6Addr where
  addr : String
deriving DecidableEq, Repr

/-- Socket address (`address:port`) value. -/
structure SocketAddr where
  addr : String
deriving DecidableEq, Repr

/-- Modelled from the spec and from the uses in `main.rs` /
`redis_mod.rs`: the error kinds of `enums_structs.rs` reachable from
the given sources (`ErrorKind::SetupForwardersError`,
`ErrorKind::SetupBindingError`). -/
inductive ErrorKind
  | SetupForwardersError
  | SetupBindingError
deriving DecidableEq, Repr

/-- Modelled from the spec and from the field accesses in the given
sources: the `Config` struct of `enums_structs.rs`. -/
structure Config where
  daemon_id : String
  forwarders : List SocketAddr
  binds : List String
  is_filtering : Bool
  matchclasses : Option (List String)
  blackhole_ips : Option (Ipv4Addr × Ipv6Addr)
deriving DecidableEq, Repr

/-- One fetch result of `redis_mod::get` for a named set: either the
member list or a store error (whose detail is irrelevant). -/
def FetchResult : Type := Except Unit (List String)

/-- The store as seen by one `build_config` run: the four fetch
results, one per `"{kind}_{daemon_id}"` set. -/
structure Store where
  blackhole_ips : FetchResult
  matchclasses : FetchResult
  forwarders : FetchResult
  binds : FetchResult

/-- The Rust standard-library string parsers used by `build_config`,
passed as oracles (they are external to the repository). -/
structure Parsers where
  parseIpv4 : String → Option Ipv4Addr
  parseIpv6 : String → Option Ipv6Addr
  parseSocketAddr : String → Option SocketAddr

/-- Outcome of `build_config`: `Ok(config)`, `Err(kind)`, or a panic
raised by one of its `.expect` calls (with the expect message). -/
inductive BuildResult
  | ok (config : Config)
  | err (e : ErrorKind)
  | panicked (msg : String)
deriving DecidableEq, Repr

/-- `build_config`, lines 42-65 of `redis_mod.rs`: fetch
`blackhole_ips` (`.expect` panics on a store error); if the count is
not 2, leave filtering disabled; otherwise parse entry 0 as IPv4 and
entry 1 as IPv6 (`.expect` panics on parse failure), then fetch
`matchclasses` (`.expect` panics on a store error) and enable
filtering exactly when that set is non-empty.  Returns the values of
the `blackhole_ips`, `matchclasses` and `is_filtering` fields, or the
panic message. -/
def filtering_step (s : Store) (p : Parsers) :
    Except String (Option (Ipv4Addr × Ipv6Addr) × Option (List String) × Bool) :=
  match s.blackhole_ips with
  | .error _ => .error "Error fetching blackhole_ips"
  | .ok tmp_blackhole_ips =>
    let blackhole_ips_count := tmp_blackhole_ips.length
    if blackhole_ips_count ≠ 2 then
      .ok (none, none, false)
    else
      match p.parseIpv4 (tmp_blackhole_ips.getD 0 "") with
      | none => .error "Error parsing blackhole_ipv4"
      | some v4 =>
        match p.parseIpv6 (tmp_blackhole_ips.getD 1 "") with
        | none => .error "Error parsing blackhole_ipv6"
        | some v6 =>
          match s.matchclasses with
          | .error _ => .error "Error fetching matchclasses"
          | .ok tmp_matchclasses =>
            if tmp_matchclasses.length = 0 then
              .ok (some (v4, v6), none, false)
            else
              .ok (some (v4, v6), some tmp_matchclasses, true)

/-- `build_config`, lines 97-105 of `redis_mod.rs`: fetch `binds`
(`.expect` panics on a store error); `bind_count` is a `u32`; zero
binds is `Err(SetupBindingError)`, otherwise the config is returned. -/
def binds_step (s : Store) (config : Config) : BuildResult :=
  match s.binds with
  | .error _ => .panicked "Error fetching binds"
  | .ok binds =>
    let bind_count := binds.length % 2 ^ 32
    if bind_count = 0 then
      .err .SetupBindingError
    else
      .ok { config with binds := binds }

/-- `build_config`, lines 67-95 of `redis_mod.rs`: fetch `forwarders`
(`.expect` panics on a store error); `forwarders_count` is the list
length cast `as u8`; if it is 0 the build fails with
`SetupForwardersError`.  The loop keeps the entries that parse as
socket addresses (`continue` skips the push and the increment of the
`u8` counter `valid_forwarder_count`).  The trailing
`if`/`else if`/`else if` chain mirrors the source exactly: the
`valid_forwarder_count == 0` arm is only reached when the two arms
before it fail.  Then the binds step runs. -/
def forwarders_binds_step (s : Store) (p : Parsers) (config : Config) : BuildResult :=
  match s.forwarders with
  | .error _ => .panicked "Error fetching forwarders"
  | .ok ser_forwarders =>
    let forwarders_count := ser_forwarders.length % 2 ^ 8
    if forwarders_count = 0 then
      .err .SetupForwardersError
    else
      let valid_forwarders := ser_forwarders.filterMap p.parseSocketAddr
      let valid_forwarder_count := valid_forwarders.length % 2 ^ 8
      let config2 := { config with forwarders := valid_forwarders }
      if valid_forwarder_count = forwarders_count then
        binds_step s config2
      else if valid_forwarder_count < forwarders_count then
        binds_step s config2
      else if valid_forwarder_count = 0 then
        .err .SetupForwardersError
      else
        binds_step s config2

/-- `build_config` of `redis_mod.rs`, whole function: start from the
default `Config`, run the filtering step (a panic there aborts the
build), then the forwarders and binds steps. -/
def build_config (daemon_id : String) (s : Store) (p : Parsers) : BuildResult :=
  let config : Config :=
    { daemon_id := daemon_id, forwarders := [], binds := [],
      is_filtering := false, matchclasses := none, blackhole_ips := none }
  match filtering_step s p with
  | .error msg => .panicked msg
  | .ok (bh, mc, isf) =>
    forwarders_binds_step s p
      { config with blackhole_ips := bh, matchclasses := mc, is_filtering := isf }

/-- The OS socket-binding oracles used by `setup_binds`
(`UdpSocket::bind` and `TcpListener::bind` outcomes per address
string); they are external to the repository. -/
structure BindEnv where
  udpBindOk : String → Bool
  tcpBindOk : String → Bool

/-- Outcome of `setup_binds`: `Ok(())`, `Err(kind)`, or an
index-out-of-bounds panic from `splits[1]`. -/
inductive SetupBindsResult
  | ok
  | err (e : ErrorKind)
  | panicked (msg : String)
deriving DecidableEq, Repr

/-- Rust `bind.split("=")` as used in `setup_binds`, modelled
character-wise (the separator is the single character `'='`). -/
def splitEq (s : String) : List String :=
  (s.toList.splitOn '=').map String.mk

/-- The `for bind in config.binds` loop of `setup_binds`
(`main.rs` lines 57-81), returning the final
`successful_binds_count`, or the panic message if an iteration
indexes `splits[1]` on a spec with no `"="`.  `splits[0]` is always
present (Rust `split` yields at least one piece); `splits[1]` is an
out-of-bounds panic when the spec has no separator.  An unknown
protocol token or a failed OS bind hits `continue`, skipping the
increment. -/
def setup_binds_loop (env : BindEnv) : List String → Nat → Except String Nat
  | [], successful_binds_count => .ok successful_binds_count
  | bind :: rest, successful_binds_count =>
    let splits := splitEq bind
    match splits.getD 0 "" with
    | "UDP" =>
      match splits.get? 1 with
      | none => .error "index out of bounds"
      | some addr =>
        if env.udpBindOk addr then
          setup_binds_loop env rest (successful_binds_count + 1)
        else
          setup_binds_loop env rest successful_binds_count
    | "TCP" =>
      match splits.get? 1 with
      | none => .error "index out of bounds"
      | some addr =>
        if env.tcpBindOk addr then
          setup_binds_loop env rest (successful_binds_count + 1)
        else
          setup_binds_loop env rest successful_binds_count
    | _ => setup_binds_loop env rest successful_binds_count

/-- `setup_binds` of `main.rs` (lines 50-92): run the bind loop, then
the trailing `if`/`else if`/`else if` chain from the source, copied
arm for arm (`bind_count` and `successful_binds_count` are `u32`).
The `successful_binds_count == 0` arm, the only one returning
`Err(SetupBindingError)`, runs only when the two arms before it
fail. -/
def setup_binds (env : BindEnv) (config : Config) : SetupBindsResult :=
  let bind_count := config.binds.length % 2 ^ 32
  match setup_binds_loop env config.binds 0 with
  | .error msg => .panicked msg
  | .ok n =>
    let successful_binds_count := n % 2 ^ 32
    if successful_binds_count = bind_count then
      .ok
    else if successful_binds_count < bind_count then
      .ok
    else if successful_binds_count = 0 then
      .err .SetupBindingError
    else
      .ok

/-- Outcome of one `SIGHUP` arm of the `handle_signals` loop
(`main.rs` lines 101-111): either the loop continues with the given
active config in the `ArcSwap`, or the panic escaped the loop and the
signals task died. -/
inductive ReloadOutcome
  | continued (active : Config)
  | taskPanicked (msg : String)
deriving DecidableEq, Repr

/-- The `SIGHUP` arm of `handle_signals`: rebuild the config; on
`Ok` store the new config into the `ArcSwap`; on `Err` log and
`continue` with the previous config; a panic inside `build_config`
unwinds out of the loop, ending the signals task. -/
def handle_sighup (daemon_id : String) (active : Config) (s : Store) (p : Parsers) :
    ReloadOutcome :=
  match build_config daemon_id s p with
  | .ok new_config => .continued new_config
  | .err _ => .continued active
  | .panicked msg => .taskPanicked msg

/-! ### Concrete instantiations of the external oracles

A small concrete parser oracle recognising exactly the literals of the
design document's scenarios, and a bind oracle under which
`0.0.0.0:53` binds and everything else fails. -/

def stdParsers : Parsers where
  parseIpv4 a := if a = "10.0.0.1" then some ⟨a⟩ else none
  parseIpv6 a := if a = "::1" then some ⟨a⟩ else none
  parseSocketAddr a := if a = "1.1.1.1:53" then some ⟨a⟩ else none

def stdBindEnv : BindEnv where
  udpBindOk a := a == "0.0.0.0:53"
  tcpBindOk a := a == "0.0.0.0:53"

/-- A previously active configuration, used where a reload cycle needs
a current value in the `ArcSwap`. -/
def baseActiveConfig : Config :=
  { daemon_id := "d1", forwarders := [⟨"1.1.1.1:53"⟩],
    binds := ["UDP=0.0.0.0:53"], is_filtering := false,
    matchclasses := none, blackhole_ips := none }

/-- Store for C1: one fetched forwarder entry that fails to parse as a
socket address, everything else well-formed. -/
def c1Store : Store :=
  { blackhole_ips := .ok [], matchclasses := .ok [],
    forwarders := .ok ["bogus"], binds := .ok ["UDP=0.0.0.0:53"] }

/-- Store for C3's counterexample: a valid blackhole pair but an empty
matchclass set. -/
def c3Store : Store :=
  { blackhole_ips := .ok ["10.0.0.1", "::1"], matchclasses := .ok [],
    forwarders := .ok ["1.1.1.1:53"], binds := .ok ["UDP=0.0.0.0:53"] }

/-- The configuration `build_config` returns on `c3Store`. -/
def c3Config : Config :=
  { daemon_id := "d1", forwarders := [⟨"1.1.1.1:53"⟩],
    binds := ["UDP=0.0.0.0:53"], is_filtering := false,
    matchclasses := none, blackhole_ips := some (⟨"10.0.0.1"⟩, ⟨"::1"⟩) }

/-- Store for C4: the `blackhole_ips` fetch itself returns a store
error. -/
def c4Store : Store :=
  { blackhole_ips := .error (), matchclasses := .ok ["ads"],
    forwarders := .ok ["1.1.1.1:53"], binds := .ok ["UDP=0.0.0.0:53"] }

/-- Store for C5: two blackhole entries are fetched but entry 0 is not
an IPv4 address. -/
def c5Store : Store :=
  { blackhole_ips := .ok ["notv4", "::1"], matchclasses := .ok ["ads"],
    forwarders := .ok ["1.1.1.1:53"], binds := .ok ["UDP=0.0.0.0:53"] }

/-- Scenario A of the design document: empty blackhole set, non-empty
matchclasses, one forwarder, one bind. -/
def scenarioAStore : Store :=
  { blackhole_ips := .ok [], matchclasses := .ok ["ads"],
    forwarders := .ok ["1.1.1.1:53"], binds := .ok ["UDP=0.0.0.0:53"] }

/-- Scenario B of the design document: valid blackhole pair and a
non-empty matchclass set. -/
def scenarioBStore : Store :=
  { blackhole_ips := .ok ["10.0.0.1", "::1"], matchclasses := .ok ["ads"],
    forwarders := .ok ["1.1.1.1:53"], binds := .ok ["UDP=0.0.0.0:53"] }

/-- The configuration `build_config` returns on `scenarioBStore`. -/
def scenarioBConfig : Config :=
  { daemon_id := "d1", forwarders := [⟨"1.1.1.1:53"⟩],
    binds := ["UDP=0.0.0.0:53"], is_filtering := true,
    matchclasses := some ["ads"], blackhole_ips := some (⟨"10.0.0.1"⟩, ⟨"::1"⟩) }

/-- Scenario D of the design document: the forwarders fetch returns an
empty set. -/
def scenarioDStore : Store :=
  { blackhole_ips := .ok [], matchclasses := .ok ["ads"],
    forwarders := .ok [], binds := .ok ["UDP=0.0.0.0:53"] }

/-- Store for C10: 256 raw forwarder entries, whose length cast
`as u8` is 0. -/
def c10Store : Store :=
  { blackhole_ips := .ok [], matchclasses := .ok [],
    forwarders := .ok (List.replicate 256 "1.1.1.1:53"),
    binds := .ok ["UDP=0.0.0.0:53"] }

/-- Config whose bind list is C2's failing input: a single spec with
an unknown protocol token, so zero listeners bind. -/
def c2Config : Config :=
  { daemon_id := "d1", forwarders := [⟨"1.1.1.1:53"⟩],
    binds := ["BOGUS=xyz"], is_filtering := false,
    matchclasses := none, blackhole_ips := none }

/-- Config whose bind list is the spec `"UDP"` with no separator. -/
def c9UdpConfig : Config :=
  { daemon_id := "d1", forwarders := [⟨"1.1.1.1:53"⟩],
    binds := ["UDP"], is_filtering := false,
    matchclasses := none, blackhole_ips := none }

/-- Config whose bind list is the spec `"TCP"` with no separator. -/
def c9TcpConfig : Config :=
  { daemon_id := "d1", forwarders := [⟨"1.1.1.1:53"⟩],
    binds := ["TCP"], is_filtering := false,
    matchclasses := none, blackhole_ips := none }

/-- Config whose bind list is a separator-less spec that is not a
known protocol token; it takes the warn-and-skip `_` arm. -/
def c9OtherConfig : Config :=
  { daemon_id := "d1", forwarders := [⟨"1.1.1.1:53"⟩],
    binds := ["BOGUS"], is_filtering := false,
    matchclasses := none, blackhole_ips := none }

/-! ### Helper lemmas -/

/-- The binds step never touches the filtering-related fields nor the
daemon id: a successful pass returns them exactly as in the
configuration it started from. -/
theorem binds_step_fields (s : Store) (base config : Config)
    (h : binds_step s base = .ok config) :
    config.blackhole_ips = base.blackhole_ips ∧
    config.matchclasses = base.matchclasses ∧
    config.is_filtering = base.is_filtering ∧
    config.daemon_id = base.daemon_id := by
  unfold binds_step at h
  rcases hb : s.binds with u | bl <;> rw [hb] at h <;> dsimp only at h
  · exact absurd h (by simp)
  · by_cases h0 : bl.length % 2 ^ 32 = 0
    · rw [if_pos h0] at h
      exact absurd h (by simp)
    · rw [if_neg h0] at h
      injection h with h2
      subst h2
      exact ⟨rfl, rfl, rfl, rfl⟩

/-- The forwarders and binds steps never touch the filtering-related
fields nor the daemon id. -/
theorem forwarders_binds_step_fields (s : Store) (p : Parsers)
    (base config : Config)
    (h : forwarders_binds_step s p base = .ok config) :
    config.blackhole_ips = base.blackhole_ips ∧
    config.matchclasses = base.matchclasses ∧
    config.is_filtering = base.is_filtering ∧
    config.daemon_id = base.daemon_id := by
  unfold forwarders_binds_step at h
  rcases hf : s.forwarders with u | l <;> rw [hf] at h <;> dsimp only at h
  · exact absurd h (by simp)
  · by_cases h0 : l.length % 2 ^ 8 = 0
    · rw [if_pos h0] at h
      exact absurd h (by simp)
    · rw [if_neg h0] at h
      split at h
      · have h2 := binds_step_fields s _ config h
        simpa using h2
      · split at h
        · have h2 := binds_step_fields s _ config h
          simpa using h2
        · split at h
          · exact absurd h (by simp)
          · have h2 := binds_step_fields s _ config h
            simpa using h2

/-- The forwarders and binds steps never read the `matchclasses` set
from the store. -/
theorem forwarders_binds_step_matchclasses_irrel (s : Store) (mcs : FetchResult)
    (p : Parsers) (base : Config) :
    forwarders_binds_step { s with matchclasses := mcs } p base =
      forwarders_binds_step s p base := by
  rfl

/-- Characterisation of the filtering step of `build_config`: when it
returns (rather than panicking), `is_filtering` is true exactly when
two blackhole entries and a non-empty matchclass set were fetched,
`blackhole_ips` is `Some` exactly when two blackhole entries were
fetched, and `matchclasses` is `None` whenever filtering is off. -/
theorem filtering_step_spec (s : Store) (p : Parsers)
    (bh : Option (Ipv4Addr × Ipv6Addr)) (mc : Option (List String)) (isf : Bool)
    (h : filtering_step s p = .ok (bh, mc, isf)) :
    (isf = true ↔
      (∃ l, s.blackhole_ips = .ok l ∧ l.length = 2) ∧
      (∃ m, s.matchclasses = .ok m ∧ m.length ≠ 0)) ∧
    (bh.isSome = true ↔ ∃ l, s.blackhole_ips = .ok l ∧ l.length = 2) ∧
    (isf = false → mc = none) := by
  unfold filtering_step at h
  rcases hbl : s.blackhole_ips with u | l <;> rw [hbl] at h <;> dsimp only at h
  · exact absurd h (by simp)
  · by_cases hlen : l.length = 2
    · rw [if_neg (by simp [hlen])] at h
      rcases hp4 : p.parseIpv4 (l.getD 0 "") with _ | v4 <;> rw [hp4] at h <;> dsimp only at h
      · exact absurd h (by simp)
      · rcases hp6 : p.parseIpv6 (l.getD 1 "") with _ | v6 <;> rw [hp6] at h <;> dsimp only at h
        · exact absurd h (by simp)
        · rcases hm : s.matchclasses with u | m <;> rw [hm] at h <;> dsimp only at h
          · exact absurd h (by simp)
          · by_cases hme : m.length = 0
            · rw [if_pos hme] at h
              injection h with h2
              injection h2 with hb h3
              injection h3 with hmc hisf
              subst hb; subst hmc; subst hisf
              refine ⟨?_, ?_, ?_⟩
              · simp only [Bool.false_eq_true, false_iff]
                rintro ⟨-, ⟨m2, hm2, hne⟩⟩
                injection hm2 with hm3
                subst hm3
                exact hne hme
              · simp only [Option.isSome_some, true_iff]
                exact ⟨l, rfl, hlen⟩
              · intro
                rfl
            · rw [if_neg hme] at h
              injection h with h2
              injection h2 with hb h3
              injection h3 with hmc hisf
              subst hb; subst hmc; subst hisf
              refine ⟨?_, ?_, ?_⟩
              · simp only [true_iff]
                exact ⟨⟨l, rfl, hlen⟩, ⟨m, rfl, hme⟩⟩
              · simp only [Option.isSome_some, true_iff]
                exact ⟨l, rfl, hlen⟩
              · intro hc
                simp at hc
    · rw [if_pos (by simp [hlen])] at h
      injection h with h2
      injection h2 with hb h3
      injection h3 with hmc hisf
      subst hb; subst hmc; subst hisf
      refine ⟨?_, ?_, ?_⟩
      · simp only [Bool.false_eq_true, false_iff]
        rintro ⟨⟨l2, hl2, hlen2⟩, -⟩
        injection hl2 with hl3
        subst hl3
        exact hlen hlen2
      · simp only [Option.isSome_none, Bool.false_eq_true, false_iff]
        rintro ⟨l2, hl2, hlen2⟩
        injection hl2 with hl3
        subst hl3
        exact hlen hlen2
      · intro
        rfl

/-! ### Claim theorems -/

/-- C1 (code bug): with one fetched forwarder entry and zero entries
parsing as socket addresses, `build_config` does not fail with
`SetupForwardersError`; the `valid_forwarder_count < forwarders_count`
arm shadows the dead `valid_forwarder_count == 0` arm and the build
returns `Ok` with an empty forwarder list. -/
theorem c1_zero_valid_forwarders_returns_ok :
    build_config "d1" c1Store stdParsers =
      .ok { daemon_id := "d1", forwarders := [], binds := ["UDP=0.0.0.0:53"],
            is_filtering := false, matchclasses := none, blackhole_ips := none } := by
  decide

/-- C2 (code bug): over the non-empty bind list `["BOGUS=xyz"]` zero
listeners bind, yet `setup_binds` returns `Ok` — the
`successful_binds_count < bind_count` arm shadows the dead
`successful_binds_count == 0` arm, so `SetupBindingError` is never
returned for a non-empty list. -/
theorem c2_zero_binds_returns_ok :
    setup_binds stdBindEnv c2Config = .ok := by
  decide

/-- C3 (counterexample): a build with a valid blackhole pair and an
empty matchclass set returns a configuration with
`is_filtering = false` whose `blackhole_ips` field is `Some`, not
`None` — refuting "in every other case ... both blackhole_ips and
matchclasses set to None". -/
theorem c3_counterexample_blackhole_some_without_filtering :
    build_config "d1" c3Store stdParsers = .ok c3Config ∧
    c3Config.is_filtering = false ∧
    c3Config.blackhole_ips.isSome = true := by
  decide

/-- C4 (code bug): a store error while fetching `blackhole_ips` during
a SIGHUP reload cycle makes `build_config` panic via `.expect`; the
panic escapes the `let Ok(..) else continue` recovery in
`handle_signals`, so the signals task dies instead of logging and
discarding the attempt. -/
theorem c4_store_error_panics_reload :
    handle_sighup "d1" baseActiveConfig c4Store stdParsers =
      .taskPanicked "Error fetching blackhole_ips" := by
  decide

/-- C5 (counterexample): with two fetched blackhole entries whose
entry 0 fails IPv4 parsing, the build does not continue with filtering
disabled — it panics via `.expect`, so no configuration is built at
all. -/
theorem c5_counterexample_parse_failure_panics :
    build_config "d1" c5Store stdParsers =
      .panicked "Error parsing blackhole_ipv4" := by
  decide

/-- C9: a bind spec that is exactly `"UDP"` or `"TCP"` (no `"="`) makes
`setup_binds` index `splits[1]` past the end of the split vector and
panic, while a separator-less spec with any other protocol token takes
the warn-and-skip `_` arm and the function returns `Ok`. -/
theorem c9_missing_separator_panics :
    setup_binds stdBindEnv c9UdpConfig = .panicked "index out of bounds" ∧
    setup_binds stdBindEnv c9TcpConfig = .panicked "index out of bounds" ∧
    setup_binds stdBindEnv c9OtherConfig = .ok := by
  decide

/-- C3 (amended): for every build that returns a configuration,
`is_filtering` is true iff exactly two blackhole-IP entries and a
non-empty matchclass set were fetched (on the success path the two
parses necessarily succeeded, since a parse failure panics), and
`matchclasses` is `None` whenever filtering is off; but `blackhole_ips`
is `Some` exactly when two entries were fetched, even when filtering
ended up disabled by an empty matchclass set. -/
theorem c3_amended_filtering_invariant (daemon_id : String) (s : Store)
    (p : Parsers) (config : Config)
    (h : build_config daemon_id s p = .ok config) :
    (config.is_filtering = true ↔
      (∃ l, s.blackhole_ips = .ok l ∧ l.length = 2) ∧
      (∃ m, s.matchclasses = .ok m ∧ m.length ≠ 0)) ∧
    (config.blackhole_ips.isSome = true ↔
      ∃ l, s.blackhole_ips = .ok l ∧ l.length = 2) ∧
    (config.is_filtering = false → config.matchclasses = none) := by
  unfold build_config at h
  dsimp only at h
  rcases hf : filtering_step s p with msg | ⟨bh, mc, isf⟩ <;> rw [hf] at h <;> dsimp only at h
  · exact absurd h (by simp)
  · have hfields := forwarders_binds_step_fields s p _ config h
    obtain ⟨hb, hm, hi, -⟩ := hfields
    dsimp only at hb hm hi
    rw [hb, hm, hi]
    exact filtering_step_spec s p bh mc isf hf

/-- Witness for C3's amended theorem, at the design document's
scenario B store. -/
theorem c3_amended_filtering_invariant_witness :
    (scenarioBConfig.is_filtering = true ↔
      (∃ l, scenarioBStore.blackhole_ips = .ok l ∧ l.length = 2) ∧
      (∃ m, scenarioBStore.matchclasses = .ok m ∧ m.length ≠ 0)) ∧
    (scenarioBConfig.blackhole_ips.isSome = true ↔
      ∃ l, scenarioBStore.blackhole_ips = .ok l ∧ l.length = 2) ∧
    (scenarioBConfig.is_filtering = false → scenarioBConfig.matchclasses = none) :=
  c3_amended_filtering_invariant "d1" scenarioBStore stdParsers scenarioBConfig (by decide)

/-- C5 (amended): when exactly two blackhole-IP entries are fetched
and entry 0 fails to parse as IPv4 or entry 1 fails to parse as IPv6,
the build panics via `.expect` (with the corresponding expect message)
instead of continuing with filtering disabled. -/
theorem c5_amended_parse_failure_aborts_build (daemon_id : String) (s : Store)
    (p : Parsers) (l : List String)
    (hfetch : s.blackhole_ips = .ok l) (hlen : l.length = 2)
    (hfail : p.parseIpv4 (l.getD 0 "") = none ∨
      p.parseIpv6 (l.getD 1 "") = none) :
    build_config daemon_id s p = .panicked "Error parsing blackhole_ipv4" ∨
    build_config daemon_id s p = .panicked "Error parsing blackhole_ipv6" := by
  rcases hp4 : p.parseIpv4 (l.getD 0 "") with _ | v4
  · left
    have hstep : filtering_step s p = .error "Error parsing blackhole_ipv4" := by
      unfold filtering_step
      rw [hfetch]
      dsimp only
      rw [if_neg (by simp [hlen]), hp4]
    unfold build_config
    dsimp only
    rw [hstep]
  · rcases hfail with hfail4 | hp6
    · rw [hp4] at hfail4
      exact absurd hfail4 (by simp)
    · right
      have hstep : filtering_step s p = .error "Error parsing blackhole_ipv6" := by
        unfold filtering_step
        rw [hfetch]
        dsimp only
        rw [if_neg (by simp [hlen]), hp4]
        dsimp only
        rw [hp6]
      unfold build_config
      dsimp only
      rw [hstep]

/-- Witness for C5's amended theorem, at a store whose first blackhole
entry is not an IPv4 address. -/
theorem c5_amended_parse_failure_aborts_build_witness :
    build_config "d1" c5Store stdParsers = .panicked "Error parsing blackhole_ipv4" ∨
    build_config "d1" c5Store stdParsers = .panicked "Error parsing blackhole_ipv6" :=
  c5_amended_parse_failure_aborts_build "d1" c5Store stdParsers ["notv4", "::1"]
    rfl (by decide) (Or.inl (by decide))

/-- C6: when the fetched blackhole set does not have exactly two
entries, the build skips straight to the forwarders/binds steps with
filtering disabled, its result does not depend on the `matchclasses`
set (it is never fetched), and any returned configuration has
`blackhole_ips = None`, `matchclasses = None` and
`is_filtering = false`. -/
theorem c6_blackhole_count_short_circuit (daemon_id : String) (s : Store)
    (p : Parsers) (l : List String)
    (hfetch : s.blackhole_ips = .ok l) (hlen : l.length ≠ 2) :
    build_config daemon_id s p =
      forwarders_binds_step s p
        { daemon_id := daemon_id, forwarders := [], binds := [],
          is_filtering := false, matchclasses := none, blackhole_ips := none } ∧
    (∀ mcs, build_config daemon_id { s with matchclasses := mcs } p =
      build_config daemon_id s p) ∧
    (∀ config, build_config daemon_id s p = .ok config →
      config.blackhole_ips = none ∧ config.matchclasses = none ∧
      config.is_filtering = false) := by
  have hstep : filtering_step s p = .ok (none, none, false) := by
    unfold filtering_step
    rw [hfetch]
    dsimp only
    rw [if_pos hlen]
  have hstep2 : ∀ mcs, filtering_step { s with matchclasses := mcs } p =
      .ok (none, none, false) := by
    intro mcs
    unfold filtering_step
    dsimp only
    rw [hfetch]
    dsimp only
    rw [if_pos hlen]
  refine ⟨?_, ?_, ?_⟩
  · unfold build_config
    dsimp only
    rw [hstep]
  · intro mcs
    unfold build_config
    dsimp only
    rw [hstep, hstep2 mcs]
    dsimp only
    exact forwarders_binds_step_matchclasses_irrel s mcs p _
  · intro config hok
    unfold build_config at hok
    dsimp only at hok
    rw [hstep] at hok
    dsimp only at hok
    have h2 := forwarders_binds_step_fields s p _ config hok
    exact ⟨h2.1, h2.2.1, h2.2.2.1⟩

/-- Witness for C6, at the design document's scenario A store (empty
blackhole set). -/
theorem c6_blackhole_count_short_circuit_witness :
    build_config "d1" scenarioAStore stdParsers =
      forwarders_binds_step scenarioAStore stdParsers
        { daemon_id := "d1", forwarders := [], binds := [],
          is_filtering := false, matchclasses := none, blackhole_ips := none } ∧
    (∀ mcs, build_config "d1" { scenarioAStore with matchclasses := mcs } stdParsers =
      build_config "d1" scenarioAStore stdParsers) ∧
    (∀ config, build_config "d1" scenarioAStore stdParsers = .ok config →
      config.blackhole_ips = none ∧ config.matchclasses = none ∧
      config.is_filtering = false) :=
  c6_blackhole_count_short_circuit "d1" scenarioAStore stdParsers [] rfl (by decide)

/-- C7: when the filtering step completes and the fetched raw
forwarders set is empty, `build_config` fails with
`SetupForwardersError` and returns no configuration. -/
theorem c7_empty_forwarders_fatal (daemon_id : String) (s : Store) (p : Parsers)
    (fields : Option (Ipv4Addr × Ipv6Addr) × Option (List String) × Bool)
    (hfilter : filtering_step s p = .ok fields)
    (hforwarders : s.forwarders = .ok []) :
    build_config daemon_id s p = .err .SetupForwardersError := by
  obtain ⟨bh, mc, isf⟩ := fields
  unfold build_config
  dsimp only
  rw [hfilter]
  dsimp only
  unfold forwarders_binds_step
  rw [hforwarders]
  dsimp only
  simp

/-- Witness for C7, at the design document's scenario D store (empty
forwarders set). -/
theorem c7_empty_forwarders_fatal_witness :
    build_config "d1" scenarioDStore stdParsers = .err .SetupForwardersError :=
  c7_empty_forwarders_fatal "d1" scenarioDStore stdParsers (none, none, false) rfl rfl

/-- C8: when the rebuild of a SIGHUP reload cycle returns an error,
the swappable store is not written: the active configuration after the
cycle is the one from before it. -/
theorem c8_failed_reload_keeps_config (daemon_id : String) (active : Config)
    (s : Store) (p : Parsers) (e : ErrorKind)
    (hbuild : build_config daemon_id s p = .err e) :
    handle_sighup daemon_id active s p = .continued active := by
  unfold handle_sighup
  rw [hbuild]

/-- Witness for C8, with a reload cycle that fails because the
forwarders set is empty. -/
theorem c8_failed_reload_keeps_config_witness :
    handle_sighup "d1" baseActiveConfig scenarioDStore stdParsers =
      .continued baseActiveConfig :=
  c8_failed_reload_keeps_config "d1" baseActiveConfig scenarioDStore stdParsers
    .SetupForwardersError (by decide)

/-- C10: `forwarders_count` is the fetched list's length cast
`as u8`, so any fetched forwarders list whose length is a non-zero
multiple of 256 yields a computed count of 0 and the build fails with
`SetupForwardersError` despite the set being non-empty. -/
theorem c10_u8_truncation_spurious_failure (daemon_id : String) (s : Store)
    (p : Parsers)
    (fields : Option (Ipv4Addr × Ipv6Addr) × Option (List String) × Bool)
    (l : List String)
    (hfilter : filtering_step s p = .ok fields)
    (hforwarders : s.forwarders = .ok l)
    (hmod : l.length % 2 ^ 8 = 0) (hnonempty : l ≠ []) :
    build_config daemon_id s p = .err .SetupForwardersError := by
  obtain ⟨bh, mc, isf⟩ := fields
  unfold build_config
  dsimp only
  rw [hfilter]
  dsimp only
  unfold forwarders_binds_step
  rw [hforwarders]
  dsimp only
  rw [if_pos hmod]

set_option maxRecDepth 4000 in
/-- Witness for C10, at a store holding 256 valid forwarder
entries. -/
theorem c10_u8_truncation_spurious_failure_witness :
    build_config "d1" c10Store stdParsers = .err .SetupForwardersError :=
  c10_u8_truncation_spurious_failure "d1" c10Store stdParsers (none, none, false)
    (List.replicate 256 "1.1.1.1:53") rfl rfl (by simp) (by simp)
